import Mathlib

/-!
Shallow embedding of the ContextCam clone repository
(`src/_testing_image_overlay.py` and `src/app.py`).

Conventions used throughout this development:

* Python floats are modelled as exact rationals (`ℚ`).  Every IEEE float
  value is a rational number; the idealisation is that arithmetic is exact.
* The transcendental routines of Python's `math` module (`sin`, `cos`,
  `atan2`, `radians`, `degrees`) have no exact rational-valued
  counterpart, so they are abstracted as a record `MathLib` of
  rational-valued functions; every definition that uses them is
  parametrised by such a record.  Theorems that need concrete facts about
  the library (for instance `sin 0 = 0`) take them as hypotheses, which
  hold for the real `math` module.
* Python `%` on floats (with the positive modulus used in the source) is
  `pymod`, Python `round(x, 5)` is `pyround5` (Mathlib's `round` breaks
  exact ties upwards where Python breaks them to even; no statement in
  this file sits on an exact tie), Python `//` on ints is `Int.fdiv`
  (floor division), and `int(x)` applied to the nonnegative quantities of
  the source is rational floor.
* Strings are Lean `String`s; the two Python string methods the source
  uses with one-character arguments, `str.split(" ")` and
  `str.replace(":", "-")`, are embedded as the character-list functions
  `str_split` and `str_replace` (Python's `split` with an explicit
  separator keeps empty pieces and returns one piece when the separator
  does not occur, exactly as `str_split` does).
* PIL images are modelled at the level the claims need: `PILImage`
  records the width and height that PIL's `size`, `new`, `convert`,
  `crop`, `paste`, `filter` and `alpha_composite` operations track, and
  the pixel-exact parts that the claims are about (the gradient alpha
  mask and the text placements of the overlay boxes) are embedded as
  explicit pure functions of the same arithmetic as the source.
-/

namespace ContextCam

/-- Python float `a % b` for a positive modulus `b`: `a - b * floor (a / b)`.
Models line 38 of `_testing_image_overlay.py` (`(bearing + 360) % 360`). -/
def pymod (a b : ℚ) : ℚ := a - b * (⌊a / b⌋ : ℤ)

/-- Abstraction of the float-valued routines of Python's `math` module used
by `calculate_initial_compass_bearing`.  The functions are arbitrary
rational-valued functions; theorems state any needed pointwise facts about
them as hypotheses. -/
structure MathLib where
  sin : ℚ → ℚ
  cos : ℚ → ℚ
  atan2 : ℚ → ℚ → ℚ
  radians : ℚ → ℚ
  degrees : ℚ → ℚ

/-- Embedding of `calculate_initial_compass_bearing` (lines 15–40 of
`_testing_image_overlay.py`): convert the four inputs to radians, form
`dlon = lon2 - lon1`, `x = sin dlon * cos lat2`,
`y = cos lat1 * sin lat2 - sin lat1 * cos lat2 * cos dlon`, take
`atan2 x y`, convert to degrees and normalize with `(· + 360) % 360`. -/
def calculate_initial_compass_bearing (M : MathLib) (lat1 lon1 lat2 lon2 : ℚ) : ℚ :=
  let lat1r := M.radians lat1
  let lon1r := M.radians lon1
  let lat2r := M.radians lat2
  let lon2r := M.radians lon2
  let dlon := lon2r - lon1r
  let x := M.sin dlon * M.cos lat2r
  let y := M.cos lat1r * M.sin lat2r - M.sin lat1r * M.cos lat2r * M.cos dlon
  let bearing := M.atan2 x y
  let bearingDeg := M.degrees bearing
  pymod (bearingDeg + 360) 360

/-- An EXIF numeric value as consumed by `_rational_to_float`: either a
`(numerator, denominator)` pair or a plain number. -/
inductive ExifRational where
  | pair (num den : ℚ)
  | plain (x : ℚ)
deriving DecidableEq

/-- Embedding of `_rational_to_float` (lines 69–77): a pair unpacks to
`num / den`, anything else is converted with `float(...)`.  (With a zero
denominator the source raises `ZeroDivisionError`; in `ℚ` the division
yields `0`.  No claim touches that case.) -/
def rational_to_float : ExifRational → ℚ
  | .pair num den => num / den
  | .plain x => x

/-- Python `round(x, 5)`: round `x * 10^5` to the nearest integer and divide
back.  Mathlib's `round` sends an exact half to the larger integer while
Python sends it to the nearest even; the two agree everywhere else, and no
value appearing in this file is an exact tie. -/
def pyround5 (x : ℚ) : ℚ := ((round (x * 100000) : ℤ) : ℚ) / 100000

/-- A DMS triple as stored in the GPS IFD: (degrees, minutes, seconds). -/
abbrev Dms := ExifRational × ExifRational × ExifRational

/-- Embedding of `get_decimal_from_dms` (lines 80–87):
`round(degrees + minutes/60 + seconds/3600, 5)` with each component put
through `_rational_to_float`. -/
def get_decimal_from_dms (dms : Dms) : ℚ :=
  let degrees := rational_to_float dms.1
  let minutes := rational_to_float dms.2.1 / 60
  let seconds := rational_to_float dms.2.2 / 3600
  pyround5 (degrees + minutes + seconds)

/-- Split a character list at every occurrence of `sep`, keeping empty
pieces: the semantics of Python's `str.split(sep)` for a one-character
separator (`"a  b".split(" ") == ["a", "", "b"]`, `"".split(" ") == [""]`). -/
def pySplit (sep : Char) : List Char → List (List Char)
  | [] => [[]]
  | x :: xs =>
    match pySplit sep xs with
    | [] => [[]]
    | h :: t => if x = sep then [] :: h :: t else (x :: h) :: t

/-- Python `s.split(sep)` for a one-character separator. -/
def str_split (s : String) (sep : Char) : List String :=
  (pySplit sep s.data).map fun cs => String.mk cs

/-- Python `s.replace(a, b)` for one-character `a` and `b`. -/
def str_replace (s : String) (a b : Char) : String :=
  String.mk (s.data.map fun c => if c = a then b else c)

/-- The GPS IFD entries `get_comments_info` reads: tag 2 (GPSLatitude) and
tag 4 (GPSLongitude), each a DMS triple — the layout the repository's own
writer `save_image_with_metadata` produces. -/
structure GpsIfd where
  latitude : Dms
  longitude : Dms
deriving DecidableEq

/-- The slice of the decoded EXIF dictionary that `get_comments_info`
inspects: the GPS IFD (tag 34853) and DateTimeOriginal (tag 36867), each
possibly absent. -/
structure ExifInfo where
  gps : Option GpsIfd
  dateTimeOriginal : Option String
deriving DecidableEq

/-- Embedding of `get_comments_info` (lines 90–119): return `None` when the
GPS tag or the DateTimeOriginal tag is absent; otherwise decode latitude
and longitude with `get_decimal_from_dms`, split the timestamp on a space
into a date part (with `:` replaced by `-`) and a time part (empty when
there is no second field), and compute the angle by calling
`calculate_initial_compass_bearing(lat1=cord1, lon1=cord2, lat2=0.0,
lon2=0.0)`. -/
def get_comments_info (M : MathLib) (info : ExifInfo) :
    Option (ℚ × ℚ × String × String × ℚ) :=
  match info.gps, info.dateTimeOriginal with
  | some data_dict, some date_time_str =>
      let cord1 := get_decimal_from_dms data_dict.latitude
      let cord2 := get_decimal_from_dms data_dict.longitude
      let parts := str_split date_time_str ' '
      let date_month_year := str_replace (parts.headD "") ':' '-'
      let hour_min_second := parts.getD 1 ""
      let angle := calculate_initial_compass_bearing M cord1 cord2 0 0
      some (cord1, cord2, date_month_year, hour_min_second, angle)
  | _, _ => none

/-- Dimension-level model of a PIL image: the `(width, height)` component
that `img.size`, `Image.new`, `convert`, `paste`, `filter` and
`Image.alpha_composite` track. -/
structure PILImage where
  width : ℕ
  height : ℕ
deriving DecidableEq

/-- Model of `Image.new(mode, (w, h), color)`: a fresh image of the given
size. -/
def pil_new (w h : ℕ) : PILImage := ⟨w, h⟩

/-- Model of `img.convert("RGBA")`: the mode changes, the size does not. -/
def pil_convert_rgba (img : PILImage) : PILImage := img

/-- Model of `Image.alpha_composite(base, overlay)`: PIL requires the two
sizes to be equal and returns a new image of that common size (both call
sites of the repository pass an overlay created with the base's size). -/
def pil_alpha_composite (base overlay : PILImage) : PILImage := base

/-- Model of `img.crop((left, top, right, bottom))`: an image of size
`(right - left, bottom - top)`. -/
def pil_crop (img : PILImage) (left top right bottom : ℤ) : PILImage :=
  ⟨(right - left).toNat, (bottom - top).toNat⟩

/-- Model of `img.filter(ImageFilter.GaussianBlur(radius))`: blurring keeps
the size. -/
def pil_gaussian_blur (img : PILImage) (radius : ℕ) : PILImage := img

/-- Model of `img.paste(other, pos)` / `img.paste(other, pos, mask)`: pasting
mutates pixels in place and keeps the target's size. -/
def pil_paste (img other : PILImage) : PILImage := img

/-- The output filename built at lines 220 and 281 of
`_testing_image_overlay.py`:
`f"{glocation}_{component}_{defect_line1}_{defect_line2}_{idd}.png"`. -/
def combined_image_name (glocation component defect_line1 defect_line2 : String)
    (idd : ℤ) : String :=
  glocation ++ "_" ++ component ++ "_" ++ defect_line1 ++ "_" ++ defect_line2 ++
    "_" ++ toString idd ++ ".png"

/-- What a renderer call produces, at the granularity the claims need: the
name of the file written into the output folder and the combined image. -/
structure RenderOutput where
  filename : String
  image : PILImage
deriving DecidableEq

/-- Embedding of `create_standardized_overlay_image` (lines 122–225) at the
data-flow level of its observable output: read `(base_width, base_height)`
from the base image, build an overlay of the same size, draw the two box
strips on the overlay (pixel-level drawing does not change any size),
alpha-composite the RGBA-converted base with the overlay, and save the
result under `combined_image_name`.  The text content and box geometry of
the strips are embedded separately as `draw_boxes_with_text`. -/
def create_standardized_overlay_image (base : PILImage) (cord1 cord2 : ℚ)
    (date_month_year hour_min_second : String) (angle : ℚ)
    (glocation component defect_line1 defect_line2 : String) (idd : ℤ) :
    RenderOutput :=
  let base_width := base.width
  let base_height := base.height
  let overlay_image := pil_new base_width base_height
  let combined_image := pil_alpha_composite (pil_convert_rgba base) overlay_image
  { filename := combined_image_name glocation component defect_line1 defect_line2 idd
    image := combined_image }

/-- The partial variant's box height (line 253):
`box_height = base_height // 12 - base_height / 240`, an exact rational
(integer floor-division minus float division), later rounded to an int by
`draw_bottom_left_box`. -/
def partial_box_height (base_height : ℕ) : ℚ :=
  ((base_height / 12 : ℕ) : ℚ) - (base_height : ℚ) / 240

/-- Embedding of `create_partial_overlay_image` (lines 227–286) at the same
level: open the base image, build a same-size overlay, let
`draw_bottom_left_box` blur-and-paste a `box_width × box_height` region of
the base in place and paste the shaded gradient box onto the overlay
(neither paste changes a size), then alpha-composite and save under
`combined_image_name`.  The gradient mask itself is embedded as
`draw_bottom_left_box_alpha` and the text placement as
`draw_bottom_left_box_text`. -/
def create_partial_overlay_image (base : PILImage) (cord1 cord2 : ℚ)
    (date_month_year hour_min_second : String) (angle : ℚ)
    (glocation component defect_line1 defect_line2 : String) (idd : ℤ) :
    RenderOutput :=
  let base_width := base.width
  let base_height := base.height
  let overlay_image := pil_new base_width base_height
  let box_height : ℤ := round (partial_box_height base_height)
  let box_width : ℤ := base_width / 3
  let y_position : ℤ := base_height - box_height
  let blur_crop := pil_gaussian_blur
    (pil_crop base 0 y_position box_width (y_position + box_height)) 20
  let base_blurred := pil_paste base blur_crop
  let shade := pil_new box_width.toNat box_height.toNat
  let overlay_shaded := pil_paste overlay_image shade
  let combined_image :=
    pil_alpha_composite (pil_convert_rgba base_blurred) overlay_shaded
  { filename := combined_image_name glocation component defect_line1 defect_line2 idd
    image := combined_image }

/-- `full_shade_end = int(box_width * 0.75)` (line 434).  `0.75` is exact in
binary floating point, so this is exactly `⌊3 * box_width / 4⌋`. -/
def draw_bottom_left_box_full_shade_end (box_width : ℕ) : ℕ :=
  3 * box_width / 4

/-- `gradient_width = max(1, box_width - full_shade_end)` (line 435). -/
def draw_bottom_left_box_gradient_width (box_width : ℕ) : ℕ :=
  max 1 (box_width - draw_bottom_left_box_full_shade_end box_width)

/-- The alpha value the mask loop of `draw_bottom_left_box` (lines 437–445)
assigns to every pixel of column `i` (the loop writes the same `alpha` to
all rows `j` of the column): `max_alpha` left of `full_shade_end`, and
`int(max_alpha * (1 - t))` with `t = (i - full_shade_end) / gradient_width`
on the fade region — which for the loop's range `i < box_width` is the
nonnegative quantity `⌊max_alpha * (gradient_width - (i - full_shade_end))
/ gradient_width⌋`, here as ℕ floor-division.  (In the source the float
products can land one ulp below an integer, shifting the truncation by one
on a measure-zero set of inputs; the exact-arithmetic value is used.) -/
def draw_bottom_left_box_alpha (box_width max_alpha i : ℕ) : ℕ :=
  let full_shade_end := draw_bottom_left_box_full_shade_end box_width
  let gradient_width := draw_bottom_left_box_gradient_width box_width
  if i < full_shade_end then max_alpha
  else max_alpha * (gradient_width - (i - full_shade_end)) / gradient_width

/-- `max_alpha = max(0, min(int(transparency), 255))` (line 415). -/
def draw_bottom_left_box_max_alpha (transparency : ℤ) : ℕ :=
  (max 0 (min transparency 255)).toNat

/-- One placed line of text: the string handed to `draw.text` and the
`(text_x, text_y)` position. -/
structure TextPlacement where
  text : String
  x : ℤ
  y : ℤ
deriving DecidableEq

/-- Embedding of the nested loop of `draw_boxes_with_text` (lines 151–193),
parametrised by `measure`, the `(width, height)` of `draw.textbbox((0,0),
line, font)` for each string: `box_width = base_width // num_boxes`, box
`i` starts at `x_position = i * box_width`, and line `j` of box `i` is
placed at `text_x = x_position + (box_width - text_width) // 2` and
`text_y = y_position + (box_height - text_height * len(lines)) // 2 +
text_height * j`, with an extra `+ 20` when `j == 1`.  The result is the
list of per-box placement lists. -/
def draw_boxes_with_text (measure : String → ℤ × ℤ) (base_width box_height : ℤ)
    (y_position : ℤ) (text_lines : List (List String)) :
    List (List TextPlacement) :=
  let box_width := base_width.fdiv (text_lines.length : ℤ)
  text_lines.enum.map fun p =>
    p.2.enum.map fun q =>
      let text_width := (measure q.2).1
      let text_height := (measure q.2).2
      let x_position := (p.1 : ℤ) * box_width
      let text_x := x_position + (box_width - text_width).fdiv 2
      let text_y :=
        if q.1 = 1 then
          y_position + 20 + (box_height - text_height * (p.2.length : ℤ)).fdiv 2 +
            text_height * (q.1 : ℤ)
        else
          y_position + (box_height - text_height * (p.2.length : ℤ)).fdiv 2 +
            text_height * (q.1 : ℤ)
      { text := q.2, x := text_x, y := text_y }

/-- Embedding of the text loop of `draw_bottom_left_box` (lines 460–472):
the two lines `[glocation, component]` are placed at
`text_x = x_position + (box_width - text_width) // 2` and
`text_y = y_position + (box_height - text_height * len(lines)) // 2 +
j * text_height` — with no bias on any line. -/
def draw_bottom_left_box_text (measure : String → ℤ × ℤ)
    (x_position y_position box_width box_height : ℤ)
    (glocation component : String) : List TextPlacement :=
  ([glocation, component].enum.map fun q =>
    let text_width := (measure q.2).1
    let text_height := (measure q.2).2
    { text := q.2
      x := x_position + (box_width - text_width).fdiv 2
      y := y_position + (box_height - text_height * 2).fdiv 2 + (q.1 : ℤ) * text_height })

/-- One spreadsheet row as read by the batch drivers of `app.py`: the
columns written by `scan_and_write_excel`. -/
structure Row where
  image_path : String
  glocation : String
  component : String
  defect_line1 : String
  defect_line2 : String
  idd : ℤ
  rotation : ℤ
deriving DecidableEq

/-- The argument tuple a driver passes to a renderer for one row. -/
structure RenderCall where
  image_path : String
  cord1 : ℚ
  cord2 : ℚ
  date_month_year : String
  hour_min_second : String
  angle : ℚ
  glocation : String
  component : String
  defect_line1 : String
  defect_line2 : String
  idd : ℤ
deriving DecidableEq

/-- The hard-coded fallback tuple of `app.py` lines 154 and 187:
`32.25315, 115.76708, '2024:06:12', '2024:06:12', -75`. -/
def fallback_tuple : ℚ × ℚ × String × String × ℚ :=
  (32.25315, 115.76708, "2024:06:12", "2024:06:12", -75)

/-- The path a rotation-aware driver actually reads for a row (lines
148–150 / 181–183): the sibling file produced by `copy_and_rotate` when
`row['rotation'] != 0`, else the row's own path.  `copy_and_rotate` is
file I/O, abstracted as the function `rotate`. -/
def effective_image_path (rotate : String → ℤ → String) (row : Row) : String :=
  if row.rotation ≠ 0 then rotate row.image_path row.rotation else row.image_path

/-- One iteration of the loop of `process_images_from_excel_with_rotation`
(lines 145–168): rotate if asked, try `get_comments_info` on the resulting
file — `readExif` abstracts reading the file's EXIF dictionary, `none`
standing for an unreadable file, and a `None` return makes the
tuple-unpacking raise, so both failure modes land in the bare `except`,
which substitutes the hard-coded fallback tuple — then call the
standardized renderer with the five extracted values and the row's five
annotation columns. -/
def process_row_std (M : MathLib) (readExif : String → Option ExifInfo)
    (rotate : String → ℤ → String) (row : Row) : RenderCall :=
  let image_path := effective_image_path rotate row
  match ((readExif image_path).bind fun info => get_comments_info M info).getD
      fallback_tuple with
  | (cord1, cord2, date_month_year, hour_min_second, angle) =>
    { image_path, cord1, cord2, date_month_year, hour_min_second, angle
      glocation := row.glocation, component := row.component
      defect_line1 := row.defect_line1, defect_line2 := row.defect_line2
      idd := row.idd }

/-- One iteration of the loop of
`process_partial_images_from_excel_with_rotation` (lines 178–201): the
source duplicates the code of `process_row_std` verbatim and calls the
partial renderer instead. -/
def process_partial_row (M : MathLib) (readExif : String → Option ExifInfo)
    (rotate : String → ℤ → String) (row : Row) : RenderCall :=
  let image_path := effective_image_path rotate row
  match ((readExif image_path).bind fun info => get_comments_info M info).getD
      fallback_tuple with
  | (cord1, cord2, date_month_year, hour_min_second, angle) =>
    { image_path, cord1, cord2, date_month_year, hour_min_second, angle
      glocation := row.glocation, component := row.component
      defect_line1 := row.defect_line1, defect_line2 := row.defect_line2
      idd := row.idd }

/-- Embedding of `process_images_from_excel_with_rotation` (lines 138–168):
the sequence of standardized-renderer calls made for the spreadsheet's
rows, one per row in order. -/
def process_images_from_excel_with_rotation (M : MathLib)
    (readExif : String → Option ExifInfo) (rotate : String → ℤ → String)
    (rows : List Row) : List RenderCall :=
  rows.map (process_row_std M readExif rotate)

/-- Embedding of `process_partial_images_from_excel_with_rotation` (lines
171–201): the sequence of partial-renderer calls, one per row in order. -/
def process_partial_images_from_excel_with_rotation (M : MathLib)
    (readExif : String → Option ExifInfo) (rotate : String → ℤ → String)
    (rows : List Row) : List RenderCall :=
  rows.map (process_partial_row M readExif rotate)

/-- A concrete instance of the abstract math library, used to evaluate the
embedding on closed inputs: `radians` and `degrees` are the identity,
`sin` is the identity, `cos` is constantly `1`, and `atan2 x y = x`.  It
agrees with Python's `math` module at the points the theorems assume
(`radians 0 = 0`, `sin 0 = 0`, `cos 0 = 1`, `atan2 0 0 = 0`,
`degrees 0 = 0`). -/
def linearLib : MathLib :=
  { sin := fun x => x
    cos := fun _ => 1
    atan2 := fun x _ => x
    radians := fun x => x
    degrees := fun x => x }

/-- A concrete GPS IFD: latitude 31°30'0" (= 31.5) and longitude 10°0'0"
(= 10). -/
def gpsExample : GpsIfd :=
  { latitude := (.plain 31, .plain 30, .plain 0)
    longitude := (.plain 10, .plain 0, .plain 0) }

/-- A concrete EXIF dictionary with both required tags present. -/
def exifExample : ExifInfo :=
  { gps := some gpsExample
    dateTimeOriginal := some "2025:11:24 10:23:45" }

/-- A concrete spreadsheet row with no rotation. -/
def rowExample : Row :=
  { image_path := "img.jpg"
    glocation := "Loc"
    component := "Comp"
    defect_line1 := "D1"
    defect_line2 := "D2"
    idd := 3
    rotation := 0 }

/-- Range of `pymod` for a positive modulus: `pymod a b ∈ [0, b)`. -/
theorem pymod_range (a b : ℚ) (hb : 0 < b) : 0 ≤ pymod a b ∧ pymod a b < b := by
  have key : pymod a b = b * Int.fract (a / b) := by
    unfold pymod Int.fract
    field_simp
  rw [key]
  constructor
  · exact mul_nonneg hb.le (Int.fract_nonneg _)
  · calc b * Int.fract (a / b) < b * 1 :=
        mul_lt_mul_of_pos_left (Int.fract_lt_one _) hb
    _ = b := mul_one b

/-- C2: for every model `M` of the float math library and every input pair,
`calculate_initial_compass_bearing` is defined (it is a total function of
the embedding — the source has no raising operation) and its result lies
in `[0, 360)`; moreover in the degenerate case where both points are
`(0, 0)` (under the facts `radians 0 = 0`, `sin 0 = 0`, `cos 0 = 1`,
`atan2 0 0 = 0`, `degrees 0 = 0`, all true of Python's `math` module) the
result is `0`. -/
theorem claim_C2 (M : MathLib) (lat1 lon1 lat2 lon2 : ℚ) :
    (0 ≤ calculate_initial_compass_bearing M lat1 lon1 lat2 lon2 ∧
      calculate_initial_compass_bearing M lat1 lon1 lat2 lon2 < 360) ∧
    (M.radians 0 = 0 → M.sin 0 = 0 → M.cos 0 = 1 → M.atan2 0 0 = 0 →
      M.degrees 0 = 0 → calculate_initial_compass_bearing M 0 0 0 0 = 0) := by
  constructor
  · exact pymod_range _ 360 (by norm_num)
  · intro h1 h2 h3 h4 h5
    simp only [calculate_initial_compass_bearing, h1, h2, h3, h4, h5, sub_self,
      sub_zero, mul_zero, zero_mul, mul_one, one_mul]
    norm_num [pymod]

/-- Witness for C2: the degenerate bearing evaluates to `0` on a concrete
library satisfying the hypotheses. -/
theorem claim_C2_witness :
    calculate_initial_compass_bearing linearLib 0 0 0 0 = 0 :=
  (claim_C2 linearLib 0 0 0 0).2 rfl rfl rfl rfl rfl

/-- C7: `get_decimal_from_dms` computes
`round(degrees + minutes/60 + seconds/3600, 5)` for any triple whose
components are pairs or plain numbers (a pair `(num, den)` is read as
`num / den`, a plain value as itself), and on the concrete triple
`(31, 30, 0)` it returns exactly `31.5`. -/
theorem claim_C7 :
    (∀ v1 v2 v3 : ExifRational,
      get_decimal_from_dms (v1, v2, v3) =
        pyround5 (rational_to_float v1 + rational_to_float v2 / 60 +
          rational_to_float v3 / 3600)) ∧
    (∀ num den : ℚ, rational_to_float (.pair num den) = num / den) ∧
    (∀ x : ℚ, rational_to_float (.plain x) = x) ∧
    get_decimal_from_dms (.plain 31, .plain 30, .plain 0) = 63 / 2 := by
  refine ⟨fun v1 v2 v3 => rfl, fun num den => rfl, fun x => rfl, ?_⟩
  norm_num [get_decimal_from_dms, rational_to_float, pyround5, round_eq]

/-- C3: `get_comments_info` returns `none` exactly when the EXIF dictionary
lacks the GPS tag or the DateTimeOriginal tag, and when both are present
it returns the decoded `(latitude, longitude, date, time, bearing)`
tuple. -/
theorem claim_C3 (M : MathLib) (info : ExifInfo) :
    (get_comments_info M info = none ↔
      info.gps = none ∨ info.dateTimeOriginal = none) ∧
    (∀ g dts, info.gps = some g → info.dateTimeOriginal = some dts →
      get_comments_info M info =
        some (get_decimal_from_dms g.latitude, get_decimal_from_dms g.longitude,
          str_replace ((str_split dts ' ').headD "") ':' '-',
          (str_split dts ' ').getD 1 "",
          calculate_initial_compass_bearing M (get_decimal_from_dms g.latitude)
            (get_decimal_from_dms g.longitude) 0 0)) := by
  obtain ⟨gps, dto⟩ := info
  cases gps <;> cases dto <;> simp [get_comments_info]

/-- Evaluation of the extractor on the concrete EXIF dictionary
`exifExample` under the concrete library `linearLib`: latitude
`31.5`, longitude `10`, date `2025-11-24`, time `10:23:45`, and the
bearing `pymod (atan2 ((0 - 10) * 1) _ + 360) 360 = 350` that `linearLib`
assigns to the pair `(31.5, 10), (0, 0)`. -/
theorem get_comments_info_exifExample :
    get_comments_info linearLib exifExample =
      some (63 / 2, 10, "2025-11-24", "10:23:45", 350) := by
  simp only [get_comments_info, exifExample, gpsExample]
  norm_num [get_decimal_from_dms, rational_to_float, pyround5, round_eq,
    calculate_initial_compass_bearing, linearLib, pymod]
  decide

/-- Witness for C3: on a concrete EXIF dictionary carrying both tags the
extractor returns the decoded tuple of the claim. -/
theorem claim_C3_witness :
    get_comments_info linearLib exifExample =
      some (get_decimal_from_dms gpsExample.latitude,
        get_decimal_from_dms gpsExample.longitude,
        str_replace ((str_split "2025:11:24 10:23:45" ' ').headD "") ':' '-',
        (str_split "2025:11:24 10:23:45" ' ').getD 1 "",
        calculate_initial_compass_bearing linearLib
          (get_decimal_from_dms gpsExample.latitude)
          (get_decimal_from_dms gpsExample.longitude) 0 0) :=
  (claim_C3 linearLib exifExample).2 gpsExample "2025:11:24 10:23:45" rfl rfl

/-- Counterexample to C1 as stated: on a concrete image whose EXIF holds
latitude 31.5 and longitude 10, the extractor returns the bearing `350` —
the bearing from `(31.5, 10)` to the fixed second point `(0, 0)` — while
the self-bearing of the extracted coordinate is `0`, so the returned
bearing is not the degenerate self-bearing the claim describes.  (The
source, line 116, calls the bearing function with `lat2=0.0, lon2=0.0`.) -/
theorem claim_C1_counterexample :
    get_comments_info linearLib exifExample =
      some (63 / 2, 10, "2025-11-24", "10:23:45", 350) ∧
    calculate_initial_compass_bearing linearLib (63 / 2) 10 (63 / 2) 10 = 0 ∧
    (350 : ℚ) ≠ 0 := by
  refine ⟨get_comments_info_exifExample, ?_, by norm_num⟩
  norm_num [calculate_initial_compass_bearing, linearLib, pymod]

/-- C1 amended: whenever the extractor returns a tuple, the bearing in it is
the one computed by calling the bearing function with the extracted
coordinate as the first endpoint and the fixed point `(0, 0)` as the
second endpoint (`lat1 = cord1`, `lon1 = cord2`, `lat2 = 0.0`,
`lon2 = 0.0`) — not a self-bearing. -/
theorem claim_C1_amended (M : MathLib) (info : ExifInfo)
    (c1 c2 : ℚ) (d t : String) (a : ℚ)
    (h : get_comments_info M info = some (c1, c2, d, t, a)) :
    a = calculate_initial_compass_bearing M c1 c2 0 0 := by
  obtain ⟨gps, dto⟩ := info
  cases gps <;> cases dto <;> simp [get_comments_info] at h
  obtain ⟨h1, h2, -, -, h5⟩ := h
  rw [← h5, h1, h2]

/-- Witness for C1 amended: the concrete extraction above carries the
bearing to `(0, 0)`. -/
theorem claim_C1_witness :
    (350 : ℚ) = calculate_initial_compass_bearing linearLib (63 / 2) 10 0 0 :=
  claim_C1_amended linearLib exifExample (63 / 2) 10 "2025-11-24" "10:23:45" 350
    get_comments_info_exifExample

/-- The bearing returned by the source's formula lies in `[0, 360)` for any
math library and any inputs, since the last step is `(· + 360) % 360` with
a positive modulus. -/
theorem calculate_initial_compass_bearing_range (M : MathLib)
    (lat1 lon1 lat2 lon2 : ℚ) :
    0 ≤ calculate_initial_compass_bearing M lat1 lon1 lat2 lon2 ∧
      calculate_initial_compass_bearing M lat1 lon1 lat2 lon2 < 360 :=
  pymod_range _ 360 (by norm_num)

/-- Any tuple the extractor returns carries, in its fifth slot, the bearing
of its first two slots to the fixed point `(0, 0)`. -/
theorem get_comments_info_angle (M : MathLib) (info : ExifInfo)
    (t : ℚ × ℚ × String × String × ℚ)
    (h : get_comments_info M info = some t) :
    t.2.2.2.2 = calculate_initial_compass_bearing M t.1 t.2.1 0 0 := by
  obtain ⟨gps, dto⟩ := info
  cases gps <;> cases dto <;> simp [get_comments_info] at h
  rw [← h]

/-- C4: for every spreadsheet row whose metadata extraction fails (the EXIF
dictionary is unreadable or `get_comments_info` returns no tuple — either
way the bare `except` fires), both rotation-aware drivers substitute the
single hard-coded fallback tuple
`(32.25315, 115.76708, '2024:06:12', '2024:06:12', -75)`, still invoke
their renderer for that row, and still produce exactly one renderer call
per row of the batch. -/
theorem claim_C4 (M : MathLib) (readExif : String → Option ExifInfo)
    (rotate : String → ℤ → String) (rows : List Row) (i : ℕ)
    (hi : i < rows.length)
    (hfail : ((readExif (effective_image_path rotate rows[i])).bind
      fun info => get_comments_info M info) = none) :
    (process_images_from_excel_with_rotation M readExif rotate rows).length =
      rows.length ∧
    (process_partial_images_from_excel_with_rotation M readExif rotate
      rows).length = rows.length ∧
    (process_images_from_excel_with_rotation M readExif rotate rows)[i]? =
      some { image_path := effective_image_path rotate rows[i]
             cord1 := 32.25315, cord2 := 115.76708
             date_month_year := "2024:06:12", hour_min_second := "2024:06:12"
             angle := -75
             glocation := rows[i].glocation, component := rows[i].component
             defect_line1 := rows[i].defect_line1
             defect_line2 := rows[i].defect_line2, idd := rows[i].idd } ∧
    (process_partial_images_from_excel_with_rotation M readExif rotate rows)[i]? =
      some { image_path := effective_image_path rotate rows[i]
             cord1 := 32.25315, cord2 := 115.76708
             date_month_year := "2024:06:12", hour_min_second := "2024:06:12"
             angle := -75
             glocation := rows[i].glocation, component := rows[i].component
             defect_line1 := rows[i].defect_line1
             defect_line2 := rows[i].defect_line2, idd := rows[i].idd } := by
  refine ⟨by simp [process_images_from_excel_with_rotation],
    by simp [process_partial_images_from_excel_with_rotation], ?_, ?_⟩
  · rw [process_images_from_excel_with_rotation, List.getElem?_map,
      List.getElem?_eq_getElem hi]
    simp [process_row_std, hfail, fallback_tuple]
  · rw [process_partial_images_from_excel_with_rotation, List.getElem?_map,
      List.getElem?_eq_getElem hi]
    simp [process_partial_row, hfail, fallback_tuple]

/-- Witness for C4: a one-row batch whose EXIF read fails yields exactly the
fallback renderer call. -/
theorem claim_C4_witness :
    (process_images_from_excel_with_rotation linearLib (fun _ => none)
        (fun p _ => p) [rowExample])[0]? =
      some { image_path := effective_image_path (fun p _ => p) rowExample
             cord1 := 32.25315, cord2 := 115.76708
             date_month_year := "2024:06:12", hour_min_second := "2024:06:12"
             angle := -75
             glocation := rowExample.glocation, component := rowExample.component
             defect_line1 := rowExample.defect_line1
             defect_line2 := rowExample.defect_line2, idd := rowExample.idd } :=
  (claim_C4 linearLib (fun _ => none) (fun p _ => p) [rowExample] 0
    (by decide) rfl).2.2.1

/-- Counterexample to C10 as stated: a one-row batch whose extraction fails
makes the driver pass the fallback bearing `-75` to the renderer, and
`-75` does not lie in `[0, 360)`. -/
theorem claim_C10_counterexample :
    (process_images_from_excel_with_rotation linearLib (fun _ => none)
        (fun p _ => p) [rowExample]).map (fun c => c.angle) = [-75] ∧
    ¬ (0 ≤ (-75 : ℚ) ∧ (-75 : ℚ) < 360) := by
  constructor
  · simp [process_images_from_excel_with_rotation, process_row_std,
      effective_image_path, rowExample, fallback_tuple]
  · norm_num

/-- C10 amended: every bearing a rotation-aware driver passes to its
renderer for a row whose metadata extraction succeeds lies in `[0, 360)`;
the hard-coded fallback tuple used on extraction failure, however,
supplies the bearing `-75`, which lies outside `[0, 360)`. -/
theorem claim_C10_amended (M : MathLib) (readExif : String → Option ExifInfo)
    (rotate : String → ℤ → String) (rows : List Row) (i : ℕ)
    (hi : i < rows.length) (t : ℚ × ℚ × String × String × ℚ)
    (hsucc : ((readExif (effective_image_path rotate rows[i])).bind
      fun info => get_comments_info M info) = some t) :
    (∃ c, (process_images_from_excel_with_rotation M readExif rotate rows)[i]? =
      some c ∧ 0 ≤ c.angle ∧ c.angle < 360) ∧
    (∃ c, (process_partial_images_from_excel_with_rotation M readExif rotate
      rows)[i]? = some c ∧ 0 ≤ c.angle ∧ c.angle < 360) ∧
    fallback_tuple.2.2.2.2 = -75 ∧
    ¬ (0 ≤ fallback_tuple.2.2.2.2 ∧ fallback_tuple.2.2.2.2 < 360) := by
  obtain ⟨info, hinfo, hext⟩ := Option.bind_eq_some.mp hsucc
  have hangle := get_comments_info_angle M info t hext
  obtain ⟨c1, c2, d, tm, a⟩ := t
  dsimp only at hangle
  refine ⟨⟨process_row_std M readExif rotate rows[i], ?_, ?_⟩,
    ⟨process_partial_row M readExif rotate rows[i], ?_, ?_⟩, rfl, by norm_num [fallback_tuple]⟩
  · rw [process_images_from_excel_with_rotation, List.getElem?_map,
      List.getElem?_eq_getElem hi]
    rfl
  · have hc : (process_row_std M readExif rotate rows[i]).angle = a := by
      simp [process_row_std, hsucc]
    rw [hc, hangle]
    exact calculate_initial_compass_bearing_range M c1 c2 0 0
  · rw [process_partial_images_from_excel_with_rotation, List.getElem?_map,
      List.getElem?_eq_getElem hi]
    rfl
  · have hc : (process_partial_row M readExif rotate rows[i]).angle = a := by
      simp [process_partial_row, hsucc]
    rw [hc, hangle]
    exact calculate_initial_compass_bearing_range M c1 c2 0 0

/-- Witness for C10 amended: a one-row batch whose extraction succeeds, with
the fallback's out-of-range bearing exhibited. -/
theorem claim_C10_witness :
    fallback_tuple.2.2.2.2 = -75 :=
  (claim_C10_amended linearLib (fun _ => some exifExample) (fun p _ => p)
    [rowExample] 0 (by decide) (63 / 2, 10, "2025-11-24", "10:23:45", 350)
    get_comments_info_exifExample).2.2.1

/-- C6: both renderer variants name their output file
`{glocation}_{component}_{defect_line1}_{defect_line2}_{idd}.png`; the
name is a pure function of those five values (the base image, the
coordinates, the date, the time and the angle do not appear in it), so
two calls sharing the five values write the same file. -/
theorem claim_C6 (base base2 : PILImage) (c1 c2 c1b c2b : ℚ)
    (dmy hms dmyb hmsb : String) (a ab : ℚ)
    (glocation component defect_line1 defect_line2 : String) (idd : ℤ) :
    (create_standardized_overlay_image base c1 c2 dmy hms a glocation component
      defect_line1 defect_line2 idd).filename =
      combined_image_name glocation component defect_line1 defect_line2 idd ∧
    (create_partial_overlay_image base2 c1b c2b dmyb hmsb ab glocation component
      defect_line1 defect_line2 idd).filename =
      combined_image_name glocation component defect_line1 defect_line2 idd ∧
    (create_standardized_overlay_image base c1 c2 dmy hms a glocation component
      defect_line1 defect_line2 idd).filename =
      (create_partial_overlay_image base2 c1b c2b dmyb hmsb ab glocation
        component defect_line1 defect_line2 idd).filename :=
  ⟨rfl, rfl, rfl⟩

/-- C8: each renderer variant outputs an image of exactly the input image's
width and height. -/
theorem claim_C8 (base : PILImage) (c1 c2 : ℚ) (dmy hms : String) (a : ℚ)
    (glocation component defect_line1 defect_line2 : String) (idd : ℤ) :
    ((create_standardized_overlay_image base c1 c2 dmy hms a glocation
        component defect_line1 defect_line2 idd).image.width = base.width ∧
      (create_standardized_overlay_image base c1 c2 dmy hms a glocation
        component defect_line1 defect_line2 idd).image.height = base.height) ∧
    ((create_partial_overlay_image base c1 c2 dmy hms a glocation
        component defect_line1 defect_line2 idd).image.width = base.width ∧
      (create_partial_overlay_image base c1 c2 dmy hms a glocation
        component defect_line1 defect_line2 idd).image.height = base.height) :=
  ⟨⟨rfl, rfl⟩, ⟨rfl, rfl⟩⟩

/-- C5: in the partial-variant bottom-left box (any box at least two pixels
wide), every pixel column left of `full_shade_end = int(0.75 * box_width)`
— the left 75 % of the box — receives the configured maximum alpha; the
remaining columns follow the truncated linear fade
`⌊max_alpha * (gradient_width - (i - full_shade_end)) / gradient_width⌋`;
the leftmost column's alpha equals the configured maximum; and the
rightmost column's alpha is `⌊max_alpha / gradient_width⌋` — the "0 (or
near 0)" of the claim: at most `max_alpha / gradient_width`, and exactly
`0` whenever the fade region is wider than `max_alpha` (for the source's
`max_alpha = 200`, every box wider than about 800 pixels). -/
theorem claim_C5 (box_width max_alpha : ℕ) (hbw : 2 ≤ box_width) :
    (∀ i, i < draw_bottom_left_box_full_shade_end box_width →
      draw_bottom_left_box_alpha box_width max_alpha i = max_alpha) ∧
    (∀ i, draw_bottom_left_box_full_shade_end box_width ≤ i → i < box_width →
      draw_bottom_left_box_alpha box_width max_alpha i =
        max_alpha * (draw_bottom_left_box_gradient_width box_width -
            (i - draw_bottom_left_box_full_shade_end box_width)) /
          draw_bottom_left_box_gradient_width box_width) ∧
    draw_bottom_left_box_alpha box_width max_alpha 0 = max_alpha ∧
    draw_bottom_left_box_alpha box_width max_alpha (box_width - 1) =
      max_alpha / draw_bottom_left_box_gradient_width box_width ∧
    (max_alpha < draw_bottom_left_box_gradient_width box_width →
      draw_bottom_left_box_alpha box_width max_alpha (box_width - 1) = 0) := by
  have hfse_lt : draw_bottom_left_box_full_shade_end box_width < box_width := by
    unfold draw_bottom_left_box_full_shade_end
    omega
  have hfse_ge1 : 1 ≤ draw_bottom_left_box_full_shade_end box_width := by
    unfold draw_bottom_left_box_full_shade_end
    omega
  have hgw : draw_bottom_left_box_gradient_width box_width =
      box_width - draw_bottom_left_box_full_shade_end box_width := by
    unfold draw_bottom_left_box_gradient_width
    omega
  have hright : draw_bottom_left_box_alpha box_width max_alpha (box_width - 1) =
      max_alpha / draw_bottom_left_box_gradient_width box_width := by
    have hcond : ¬ (box_width - 1 < draw_bottom_left_box_full_shade_end box_width) := by
      omega
    have hone : draw_bottom_left_box_gradient_width box_width -
        (box_width - 1 - draw_bottom_left_box_full_shade_end box_width) = 1 := by
      omega
    simp only [draw_bottom_left_box_alpha, if_neg hcond, hone, mul_one]
  refine ⟨fun i hi => by simp only [draw_bottom_left_box_alpha, if_pos hi],
    fun i h1 h2 => by
      simp only [draw_bottom_left_box_alpha, if_neg (Nat.not_lt.mpr h1)],
    by
      have h0 : 0 < draw_bottom_left_box_full_shade_end box_width := hfse_ge1
      simp only [draw_bottom_left_box_alpha, if_pos h0],
    hright, fun hma => by rw [hright]; exact Nat.div_eq_of_lt hma⟩

/-- Witness for C5: on a 400-pixel-wide box with the source's configured
`max_alpha = 200`, the leftmost column carries alpha 200. -/
theorem claim_C5_witness :
    draw_bottom_left_box_alpha 400 200 0 = 200 :=
  (claim_C5 400 200 (by norm_num)).2.2.1

/-- C9: in every box `i` drawn by the standardized renderer's
`draw_boxes_with_text`, line `j` is placed at horizontal offset
`box_left + (box_width - text_width) // 2` (with `box_left = i *
box_width`); its vertical offset is the even distribution
`y_position + (box_height - text_height * num_lines) // 2 + text_height *
j`, plus a fixed 20-pixel bias exactly when `j = 1` (the second line);
and the partial variant's bottom-left box places its lines by the same
centered formulas with no bias on any line, the second included. -/
theorem claim_C9 (measure : String → ℤ × ℤ) (base_width box_height y_position : ℤ)
    (text_lines : List (List String)) (i j : ℕ) (hi : i < text_lines.length)
    (hj : j < text_lines[i].length)
    (x2 y2 bw2 bh2 : ℤ) (glocation component : String) (k : ℕ) (hk : k < 2) :
    (∃ box, (draw_boxes_with_text measure base_width box_height y_position
        text_lines)[i]? = some box ∧
      box[j]? = some
        { text := text_lines[i][j]
          x := (i : ℤ) * base_width.fdiv (text_lines.length : ℤ) +
            (base_width.fdiv (text_lines.length : ℤ) -
              (measure text_lines[i][j]).1).fdiv 2
          y := (if j = 1 then 20 else 0) + (y_position +
            (box_height - (measure text_lines[i][j]).2 *
              (text_lines[i].length : ℤ)).fdiv 2 +
            (measure text_lines[i][j]).2 * (j : ℤ)) }) ∧
    (draw_bottom_left_box_text measure x2 y2 bw2 bh2 glocation component)[k]? =
      some
        { text := if k = 0 then glocation else component
          x := x2 + (bw2 - (measure (if k = 0 then glocation else component)).1).fdiv 2
          y := y2 + (bh2 -
              (measure (if k = 0 then glocation else component)).2 * 2).fdiv 2 +
            (k : ℤ) * (measure (if k = 0 then glocation else component)).2 } := by
  constructor
  · refine ⟨text_lines[i].enum.map fun q =>
      { text := q.2
        x := (i : ℤ) * base_width.fdiv (text_lines.length : ℤ) +
          (base_width.fdiv (text_lines.length : ℤ) - (measure q.2).1).fdiv 2
        y := if q.1 = 1 then
            y_position + 20 + (box_height - (measure q.2).2 *
              (text_lines[i].length : ℤ)).fdiv 2 + (measure q.2).2 * (q.1 : ℤ)
          else
            y_position + (box_height - (measure q.2).2 *
              (text_lines[i].length : ℤ)).fdiv 2 + (measure q.2).2 * (q.1 : ℤ) },
      ?_, ?_⟩
    · unfold draw_boxes_with_text
      simp [List.getElem?_map, List.getElem?_enum, List.getElem?_eq_getElem hi]
    · simp only [List.getElem?_map, List.getElem?_enum,
        List.getElem?_eq_getElem hj, Option.map_some]
      by_cases hj1 : j = 1 <;> simp only [hj1, if_pos, if_neg, reduceIte] <;>
        refine congrArg some ?_ <;> refine TextPlacement.mk.injEq .. |>.mpr ?_ <;>
        refine ⟨rfl, rfl, ?_⟩ <;> simp [hj1] <;> ring
  · rcases k with - | k
    · simp [draw_bottom_left_box_text]
    · rcases k with - | k
      · simp [draw_bottom_left_box_text]
      · omega

/-- Witness for C9: with a concrete measure (width = string length, height
10), the second line of a concrete bottom-left box lands at the centered,
bias-free position `(0 + (100 - 1) // 2, 90 + (20 - 20) // 2 + 10) =
(49, 100)`. -/
theorem claim_C9_witness :
    (draw_bottom_left_box_text (fun s => ((s.length : ℤ), 10)) 0 90 100 20 "G"
      "C")[1]? = some { text := "C", x := 49, y := 100 } := by
  have h := (claim_C9 (fun s => ((s.length : ℤ), 10)) 300 40 0 [["A", "B"]] 0 0
    (by decide) (by decide) 0 90 100 20 "G" "C" 1 (by decide)).2
  rw [h]
  decide

end ContextCam
